import Mathlib

/-!
Verification of the PartSelect-Agent client-side session state machine.

The definitions below are a shallow embedding of the frontend source:
  - the cart reducer logic of the session component (`addToCart`,
    `updateCartQuantity`, `removeFromCart`, `handleCheckout` and the
    localStorage load/save effects in `App.js`),
  - the derived totals of `CartModal.js`,
  - the chat handlers of `ChatWindow.js` (`handleSend`, `handleAddToCart`),
  - the request builders of `services/api.js` (`getAIMessage`, `addToCart`).

JavaScript numbers are modelled as rationals, asynchronous remote calls as
explicit outcome parameters (a resolved value or a rejection), and component
state as explicit state records threaded through the handlers.
-/

set_option maxHeartbeats 1600000

/-- A product reference as delivered by the assistant backend.  Only the
fields the cart/session logic reads are modelled: `partselect_number` (the
catalog key used for line matching), display `name`, `brand` and `price`. -/
structure ProductRef where
  partselect_number : String
  name : String
  brand : String
  price : ℚ
deriving Repr, DecidableEq

/-- A cart line, i.e. the JS object `{...part, quantity: n}` stored in the
`cartItems` array of `App.js`. -/
structure CartItem where
  partselect_number : String
  name : String
  brand : String
  price : ℚ
  quantity : ℚ
deriving Repr, DecidableEq

/-- The JS spread `{...part, quantity: qty}` building a cart line from a part. -/
def cartItemOf (part : ProductRef) (quantity : ℚ) : CartItem :=
  { partselect_number := part.partselect_number
    name := part.name
    brand := part.brand
    price := part.price
    quantity := quantity }

/-- The line-matching callback `item => item.partselect_number ===
part.partselect_number` used by `App.addToCart`. -/
def sameId (part : ProductRef) (item : CartItem) : Bool :=
  item.partselect_number == part.partselect_number

/-- The map callback of `App.addToCart`:
`item => item.partselect_number === part.partselect_number
  ? { ...item, quantity: item.quantity + 1 } : item`. -/
def bump (part : ProductRef) (item : CartItem) : CartItem :=
  if sameId part item then { item with quantity := item.quantity + 1 } else item

/-- The `setCartItems` updater of `App.addToCart` (src/unnamed/part_001):
if a line with the same product identifier exists, every matching line's
quantity is incremented, otherwise `{...part, quantity: 1}` is appended. -/
def addItemLocal (prevItems : List CartItem) (part : ProductRef) : List CartItem :=
  match prevItems.find? (sameId part) with
  | some _ => prevItems.map (bump part)
  | none => prevItems ++ [cartItemOf part 1]

/-- `n` successive invocations of the local add update for the same part. -/
def addNTimes (cart : List CartItem) (part : ProductRef) : Nat → List CartItem
  | 0 => cart
  | n + 1 => addItemLocal (addNTimes cart part n) part

/-- The quantity of the first line matching `part` in `cart`, `0` if absent
(observation used to state the repeated-add property). -/
def startQty (cart : List CartItem) (part : ProductRef) : ℚ :=
  ((cart.find? (sameId part)).map (fun item => item.quantity)).getD 0

/-- JS `Array.prototype.filter` with an index-aware callback, with the running
index made explicit. -/
def filterWithIndexFrom {α : Type} (p : Nat → α → Bool) : Nat → List α → List α
  | _, [] => []
  | i, x :: xs =>
    if p i x then x :: filterWithIndexFrom p (i + 1) xs
    else filterWithIndexFrom p (i + 1) xs

/-- JS `array.filter((x, i) => ...)`. -/
def filterWithIndex {α : Type} (p : Nat → α → Bool) (l : List α) : List α :=
  filterWithIndexFrom p 0 l

/-- JS `Array.prototype.map` with an index-aware callback, with the running
index made explicit. -/
def mapWithIndexFrom {α : Type} (f : Nat → α → α) : Nat → List α → List α
  | _, [] => []
  | i, x :: xs => f i x :: mapWithIndexFrom f (i + 1) xs

/-- JS `array.map((x, i) => ...)`. -/
def mapWithIndex {α : Type} (f : Nat → α → α) (l : List α) : List α :=
  mapWithIndexFrom f 0 l

/-- `App.removeFromCart(index)`:
`prevItems.filter((_, i) => i !== index)`.  The JS index is a number, so it is
modelled as an integer (negative arguments simply match no position). -/
def removeFromCart (prevItems : List CartItem) (index : Int) : List CartItem :=
  filterWithIndex (fun i _ => !((i : Int) == index)) prevItems

/-- `App.updateCartQuantity(index, newQuantity)`: routes `newQuantity <= 0`
to `removeFromCart`, otherwise maps over the list replacing only the line at
`index`. -/
def updateCartQuantity (prevItems : List CartItem) (index : Int) (newQuantity : ℚ) :
    List CartItem :=
  if newQuantity ≤ 0 then removeFromCart prevItems index
  else
    mapWithIndex
      (fun i item =>
        if (i : Int) == index then { item with quantity := newQuantity } else item)
      prevItems

/-- Modelled from the spec: `SetQuantity(idx, qty)` "Fails (no-op, reports an
index-out-of-range condition) if `idx` is not a valid existing line".  This is
the spec's claimed contract, stated with an explicit error channel, to be
compared with the source's `updateCartQuantity` which has no error channel. -/
def specSetQuantity (cart : List CartItem) (index : Int) (newQuantity : ℚ) :
    Except String (List CartItem) :=
  if 0 ≤ index ∧ index < (cart.length : Int) then
    Except.ok (updateCartQuantity cart index newQuantity)
  else
    Except.error "index out of range"

/-- `CartModal.js`: `subtotal = cartItems.reduce((sum, item) => sum +
(item.price * item.quantity), 0)`. -/
def subtotal (cartItems : List CartItem) : ℚ :=
  cartItems.foldl (fun sum item => sum + item.price * item.quantity) 0

/-- `CartModal.js`: `shipping = subtotal >= 50 ? 0 : 15.99`. -/
def shipping (cartItems : List CartItem) : ℚ :=
  if subtotal cartItems ≥ 50 then 0 else 15.99

/-- `CartModal.js`: `tax = subtotal * 0.085`. -/
def tax (cartItems : List CartItem) : ℚ :=
  subtotal cartItems * 0.085

/-- `CartModal.js`: `total = subtotal + shipping + tax`. -/
def total (cartItems : List CartItem) : ℚ :=
  subtotal cartItems + shipping cartItems + tax cartItems

/-- Availability of the checkout control in `CartModal.js`: the summary block
holding the checkout button is rendered only in the `cartItems.length === 0 ?
... : ...` else-branch, and the button carries `disabled={isProcessing}`. -/
def checkoutControlActive (cartItems : List CartItem) (isProcessing : Bool) : Bool :=
  if cartItems.length == 0 then false else !isProcessing

/-- A JSON value, the image of `JSON.stringify`/`JSON.parse` at the
localStorage boundary of `App.js`. -/
inductive Json where
  | null : Json
  | bool (b : Bool) : Json
  | num (q : ℚ) : Json
  | str (s : String) : Json
  | arr (elements : List Json) : Json
  | obj (fields : List (String × Json)) : Json
deriving Repr

/-- JSON image of one cart line under `JSON.stringify(cartItems)`. -/
def itemToJson (item : CartItem) : Json :=
  Json.obj
    [("partselect_number", Json.str item.partselect_number),
     ("name", Json.str item.name),
     ("brand", Json.str item.brand),
     ("price", Json.num item.price),
     ("quantity", Json.num item.quantity)]

/-- JSON image of the whole cart under `JSON.stringify(cartItems)` (the value
written to localStorage key `partselect_cart` by the save effect). -/
def cartToJson (cart : List CartItem) : Json :=
  Json.arr (cart.map itemToJson)

/-- Modelled from the spec: the canonical reading of a persisted record as "a
serialized array of CartLine-equivalent records ... product fields flattened
in, plus quantity" — the decoder the source itself does not have.  Returns
`none` when the JSON value is not a valid cart line. -/
def jsonToItem (j : Json) : Option CartItem :=
  match j with
  | Json.obj fields => do
    let pn ← (fields.lookup "partselect_number").bind fun v =>
      match v with | Json.str s => some s | _ => none
    let nm ← (fields.lookup "name").bind fun v =>
      match v with | Json.str s => some s | _ => none
    let br ← (fields.lookup "brand").bind fun v =>
      match v with | Json.str s => some s | _ => none
    let pr ← (fields.lookup "price").bind fun v =>
      match v with | Json.num q => some q | _ => none
    let qt ← (fields.lookup "quantity").bind fun v =>
      match v with | Json.num q => some q | _ => none
    pure { partselect_number := pn, name := nm, brand := br, price := pr, quantity := qt }
  | _ => none

/-- Modelled from the spec: canonical reading of a list of persisted records,
failing as soon as one element is not a valid cart line. -/
def decodeItems : List Json → Option (List CartItem)
  | [] => some []
  | x :: xs => do
    let item ← jsonToItem x
    let rest ← decodeItems xs
    pure (item :: rest)

/-- Modelled from the spec: canonical reading of a persisted payload as a cart
snapshot; `none` when the payload is not a valid snapshot. -/
def jsonToCart (j : Json) : Option (List CartItem) :=
  match j with
  | Json.arr elements => decodeItems elements
  | _ => none

/-- The load effect of `App.js` at the JSON level.  `localStorage.getItem`
returns nothing (`Option.none` outside), or a string whose `JSON.parse` either
throws (`Except.error`, caught: the state keeps its initial value `[]`) or
yields a JSON value that is passed to `setCartItems` with no validation.  The
resulting `cartItems` state is therefore an arbitrary JSON value. -/
def loadCart (saved : Option (Except Unit Json)) : Json :=
  match saved with
  | Option.none => Json.arr []
  | some (Except.error _) => Json.arr []
  | some (Except.ok j) => j

/-- A chat message as kept in the `messages` state of `ChatWindow.js`.
User messages carry no `parts` field in the source; they are modelled with
`parts = []` (the renderer treats a missing list and an empty list alike). -/
structure Message where
  role : String
  content : String
  parts : List ProductRef
deriving Repr, DecidableEq

/-- Shape of a successful `/chat` response body as consumed by `handleSend`
(`newMessage.message`, `newMessage.parts`); each field may be absent. -/
structure ChatResponse where
  message : Option String
  parts : Option (List ProductRef)
deriving Repr, DecidableEq

/-- Outcome of the awaited `getAIMessage` call: the promise resolves with a
response or rejects. -/
inductive ChatOutcome where
  | success (resp : ChatResponse) : ChatOutcome
  | failure : ChatOutcome
deriving Repr, DecidableEq

/-- The request body built by `getAIMessage` in `services/api.js`:
`{message, conversation_history}`. -/
structure ChatRequest where
  message : String
  conversation_history : List Message
deriving Repr, DecidableEq

/-- `services/api.js` `getAIMessage(userQuery)`: the fetch body is
`JSON.stringify({message: userQuery, conversation_history: []})` — the
history field is the empty array. -/
def getAIMessageRequest (userQuery : String) : ChatRequest :=
  { message := userQuery, conversation_history := [] }

/-- State of `ChatWindow.js`: `messages`, `input`, `isLoading`. -/
structure ChatState where
  messages : List Message
  input : String
  isLoading : Bool
deriving Repr, DecidableEq

/-- The initial `messages` state of `ChatWindow.js` (`defaultMessage`). -/
def defaultMessage : List Message :=
  [{ role := "assistant"
     content := "Hi! I\x27m your PartSelect AI assistant. I can help you find refrigerator and dishwasher parts, check compatibility, provide installation guides, troubleshoot issues, and assist with purchases. What can I help you with today?"
     parts := [] }]

/-- The initial `ChatWindow` state: default greeting, empty input, not loading. -/
def initialChatState : ChatState :=
  { messages := defaultMessage, input := "", isLoading := false }

/-- The fallback content `"I'm sorry, I couldn't process your request."`
substituted by `handleSend` when `newMessage.message` is falsy. -/
def fallbackContent : String :=
  "I\x27m sorry, I couldn\x27t process your request."

/-- The synthetic assistant message appended by `handleSend`'s catch branch. -/
def connectErrorContent : String :=
  "I\x27m sorry, I\x27m having trouble connecting to the server. Please try again."

/-- JS `String.prototype.trim`: strips leading and trailing whitespace. -/
def jsTrim (s : String) : String :=
  String.mk (((s.data.dropWhile Char.isWhitespace).reverse.dropWhile
    Char.isWhitespace).reverse)

/-- JS `v || fallback` for a possibly-absent string: an absent or empty
string is falsy and replaced by the fallback. -/
def jsOrString (v : Option String) (fallback : String) : String :=
  match v with
  | some s => if s == "" then fallback else s
  | none => fallback

/-- The `formattedMessage` object built by `handleSend` from a resolved
response: `{role: "assistant", content: newMessage.message || ...,
parts: newMessage.parts || []}`.  (A present-but-empty `parts` array is
truthy in JS, so `Option.getD` is the exact model.) -/
def formattedMessage (resp : ChatResponse) : Message :=
  { role := "assistant"
    content := jsOrString resp.message fallbackContent
    parts := resp.parts.getD [] }

/-- `ChatWindow.handleSend(input)` as a state transition, with the awaited
API outcome passed explicitly.  Guard: `input.trim() !== "" && !isLoading`.
On acceptance it appends the user message, clears the input, sets the latch,
then appends the assistant (or connectivity-error) message and — in the
`finally` block — clears the latch. -/
def handleSend (s : ChatState) (input : String) (outcome : ChatOutcome) : ChatState :=
  if jsTrim input != "" && !s.isLoading then
    let s1 : ChatState :=
      { messages := s.messages ++ [{ role := "user", content := input, parts := [] }]
        input := ""
        isLoading := true }
    match outcome with
    | ChatOutcome.success resp =>
      { s1 with
        messages := s1.messages ++ [formattedMessage resp]
        isLoading := false }
    | ChatOutcome.failure =>
      { s1 with
        messages := s1.messages ++
          [{ role := "assistant", content := connectErrorContent, parts := [] }]
        isLoading := false }
  else s

/-- The chat request issued by `handleSend`: under the same guard it calls
`getAIMessage(input)`, i.e. issues `getAIMessageRequest input`; otherwise no
request is issued. -/
def handleSendRequest (s : ChatState) (input : String) : Option ChatRequest :=
  if jsTrim input != "" && !s.isLoading then some (getAIMessageRequest input)
  else none

/-- The session-owning state of `App.js` (src/unnamed/part_001): the cart, the
persisted localStorage value (as a JSON value), the modal flag, the
order-confirmation flag and last order id, plus the number of `apiAddToCart`
calls currently awaited (the in-flight cart mutations of the execution). -/
structure AppState where
  cartItems : List CartItem
  persisted : Json
  isCartOpen : Bool
  orderComplete : Bool
  lastOrderId : Option String
  pendingAdds : Nat
deriving Repr

/-- Entry of `App.addToCart(part)` up to the `await apiAddToCart(...)`
suspension point: the remote call is issued unconditionally — the function
body contains no latch check — so the only state change is one more call in
flight. -/
def addToCartStart (s : AppState) (_part : ProductRef) : AppState :=
  { s with pendingAdds := s.pendingAdds + 1 }

/-- Resumption of `App.addToCart(part)` after the awaited `apiAddToCart`
settles.  If the call resolved, `setCartItems` applies the local add and the
save effect rewrites localStorage, and the function returns `true`; if it
rejected, the catch branch returns `false` and neither state is touched. -/
def addToCartResolve (s : AppState) (part : ProductRef) (remoteOk : Bool) :
    Bool × AppState :=
  if remoteOk then
    let newCart := addItemLocal s.cartItems part
    (true,
      { s with
        cartItems := newCart
        persisted := cartToJson newCart
        pendingAdds := s.pendingAdds - 1 })
  else
    (false, { s with pendingAdds := s.pendingAdds - 1 })

/-- One complete `App.addToCart(part)` invocation: start, then resolution of
its own remote call with the given outcome.  Total: every remote outcome is
converted into a boolean result — the function never rejects. -/
def addToCartApp (s : AppState) (part : ProductRef) (remoteOk : Bool) : Bool × AppState :=
  addToCartResolve (addToCartStart s part) part remoteOk

/-- The success message appended by `ChatWindow.handleAddToCart` after a
successful add. -/
def successMessage (part : ProductRef) : Message :=
  { role := "assistant"
    content := "Successfully added **" ++ part.name ++
      "** to your cart! Would you like to continue shopping or proceed to checkout?"
    parts := [] }

/-- `ChatWindow.handleAddToCart(part)`: awaits `addToCart(part)` (which always
resolves with a boolean) and appends the success message only when the result
is `true`; nothing is appended otherwise.  The catch branch would append an
error message, but it is reached only by a rejection, which `addToCartApp`
never produces. -/
def handleAddToCart (messages : List Message) (part : ProductRef) (success : Bool) :
    List Message :=
  if success then messages ++ [successMessage part] else messages

/-- `App.handleCheckout` (src/unnamed/part_001): unconditionally generates the
order id from the clock, and after the simulated delay records it, raises the
order-complete flag, clears the cart (the save effect then persists the empty
cart) and closes the modal.  The function body contains no empty-cart check
and no in-flight latch. -/
def handleCheckout (s : AppState) (now : Nat) : AppState :=
  { s with
    lastOrderId := some ("PS" ++ toString now)
    orderComplete := true
    cartItems := []
    persisted := cartToJson []
    isCartOpen := false }

/-- The auto-hide timer of `handleCheckout` / the explicit dismiss button:
both merely lower the order-complete flag. -/
def dismissOrderComplete (s : AppState) : AppState :=
  { s with orderComplete := false }

/-- Sample part (the `PS11752778` door shelf bin of the data set). -/
def part1 : ProductRef :=
  { partselect_number := "PS11752778"
    name := "Refrigerator Door Shelf Bin"
    brand := "Whirlpool"
    price := 44.95 }

/-- A session state with an empty cart and no pending operation. -/
def emptyCartState : AppState :=
  { cartItems := []
    persisted := cartToJson []
    isCartOpen := true
    orderComplete := false
    lastOrderId := none
    pendingAdds := 0 }

section Helpers

/-- `handleSend` leaves the state untouched when its entry guard is false. -/
theorem handleSend_noop (s : ChatState) (input : String) (o : ChatOutcome)
    (h : (jsTrim input != "" && !s.isLoading) = false) :
    handleSend s input o = s := by
  simp [handleSend, h]

/-- `handleSend` ends with the latch cleared whenever the guard admitted the
submission, for a resolved and for a rejected call alike. -/
theorem handleSend_clears_latch (s : ChatState) (input : String) (o : ChatOutcome)
    (h : (jsTrim input != "" && !s.isLoading) = true) :
    (handleSend s input o).isLoading = false := by
  simp only [handleSend, h, if_true]
  cases o <;> rfl

/-- Folding the running total is summing the per-line amounts. -/
theorem foldl_add_eq_sum (f : CartItem → ℚ) (l : List CartItem) (a : ℚ) :
    l.foldl (fun sum item => sum + f item) a = a + (l.map f).sum := by
  induction l generalizing a with
  | nil => simp
  | cons x xs ih => simp [ih, add_assoc]

end Helpers

/-- **C2.**  For every cart state, if the remote add-to-cart gateway call
rejects, `addToCart` returns `false` to its caller (it is a total function
into `Bool × AppState`, so no rejection escapes the orchestrator), and both
the in-memory cart and the persisted cart — indeed the whole session state —
are exactly unchanged; up to the suspension point the local cart and the
persisted value are untouched, so the local cart is mutated only after the
remote call has succeeded. -/
theorem addToCart_failure_leaves_state (s : AppState) (p : ProductRef) :
    addToCartApp s p false = (false, s)
    ∧ (addToCartStart s p).cartItems = s.cartItems
    ∧ (addToCartStart s p).persisted = s.persisted
    ∧ (addToCartApp s p true).2.cartItems = addItemLocal s.cartItems p := by
  refine ⟨?_, rfl, rfl, rfl⟩
  simp [addToCartApp, addToCartStart, addToCartResolve]

/-- **C6.**  The derived totals of `CartModal`: subtotal is the sum of price
times quantity over the lines, shipping is 0 exactly when the subtotal
reaches 50.00 (15.99 below it), tax is subtotal times 0.085, total is their
sum; on the empty cart the subtotal is 0, shipping 15.99 and tax 0. -/
theorem cartTotals (cart : List CartItem) :
    subtotal cart = (cart.map (fun item => item.price * item.quantity)).sum
    ∧ (50 ≤ subtotal cart → shipping cart = 0)
    ∧ (subtotal cart < 50 → shipping cart = 15.99)
    ∧ tax cart = subtotal cart * 0.085
    ∧ total cart = subtotal cart + shipping cart + tax cart
    ∧ subtotal [] = 0 ∧ shipping [] = 15.99 ∧ tax [] = 0 := by
  refine ⟨?_, ?_, ?_, rfl, rfl, rfl, ?_, ?_⟩
  · rw [subtotal, foldl_add_eq_sum, zero_add]
  · intro h; rw [shipping, if_pos h]
  · intro h; rw [shipping, if_neg (not_le.mpr h)]
  · rw [shipping, if_neg (by norm_num [subtotal])]
  · norm_num [tax, subtotal]

/-- Sample part priced exactly at the free-shipping boundary. -/
def part50 : ProductRef :=
  { partselect_number := "PS50"
    name := "Dishwasher Heating Element"
    brand := "GE"
    price := 50 }

/-- Witness for C6: a cart whose subtotal is exactly 50.00 gets free
shipping. -/
theorem cartTotals_witness : shipping [cartItemOf part50 1] = 0 :=
  (cartTotals [cartItemOf part50 1]).2.1 (by norm_num [subtotal, cartItemOf, part50])

/-- **C7.**  `handleSend` is a no-op (state, in particular the message
history, unchanged) when the input is empty or whitespace-only or a chat
turn is already in flight; every accepted submission ends with the chat-turn
latch cleared, on success and on failure alike. -/
theorem handleSend_guard_and_latch (s : ChatState) (input : String) (o : ChatOutcome) :
    (jsTrim input = "" ∨ s.isLoading = true → handleSend s input o = s)
    ∧ (jsTrim input ≠ "" → s.isLoading = false →
        (handleSend s input o).isLoading = false) := by
  constructor
  · intro h
    refine handleSend_noop s input o ?_
    rcases h with h | h <;> simp [h]
  · intro h1 h2
    refine handleSend_clears_latch s input o ?_
    simp [h1, h2]

/-- Witness for C7: a submission while the latch is set leaves the state
unchanged. -/
theorem handleSend_guard_and_latch_witness :
    handleSend { messages := [], input := "", isLoading := true } "hi"
      ChatOutcome.failure = { messages := [], input := "", isLoading := true } :=
  (handleSend_guard_and_latch { messages := [], input := "", isLoading := true }
    "hi" ChatOutcome.failure).1 (Or.inr rfl)

/-- **C10.**  `addToCart` converts every remote failure into the resolved
value `false` (it never rejects — it is total into `Bool × AppState`), so the
catch branch of `handleAddToCart` is unreachable; on a failed add no message
of any kind is appended to the chat history, and only a successful add
appends the success message. -/
theorem addToCart_failure_appends_nothing (s : AppState) (p : ProductRef)
    (msgs : List Message) :
    (addToCartApp s p false).1 = false
    ∧ handleAddToCart msgs p (addToCartApp s p false).1 = msgs
    ∧ handleAddToCart msgs p (addToCartApp s p true).1 = msgs ++ [successMessage p] :=
  ⟨rfl, rfl, rfl⟩

/-- **C3, counterexample.**  At the initial session state (history = the
default greeting) a submission of "hi" is accepted and issues the chat
request, but the request's `conversation_history` field is the empty list,
which is not the session's message history at the time of submission. -/
theorem chatRequest_history_cex :
    handleSendRequest initialChatState "hi" = some (getAIMessageRequest "hi")
    ∧ (getAIMessageRequest "hi").conversation_history = []
    ∧ (getAIMessageRequest "hi").conversation_history ≠ initialChatState.messages := by
  refine ⟨rfl, rfl, ?_⟩
  simp [getAIMessageRequest, initialChatState, defaultMessage]

/-- **C3, amended.**  Every request issued by an accepted submission carries
the new message and an empty `conversation_history`: the prior history is
never sent (`getAIMessage` is invoked with only the query, and the request
body hardcodes `conversation_history: []`). -/
theorem chatRequest_history_always_empty (s : ChatState) (input : String)
    (r : ChatRequest) (h : handleSendRequest s input = some r) :
    r.message = input ∧ r.conversation_history = [] := by
  unfold handleSendRequest at h
  split at h
  · simp only [Option.some.injEq] at h
    subst h
    exact ⟨rfl, rfl⟩
  · cases h

/-- Witness for the amended C3 at a concrete accepted submission. -/
theorem chatRequest_history_always_empty_witness :
    (getAIMessageRequest "hi").message = "hi"
    ∧ (getAIMessageRequest "hi").conversation_history = [] :=
  chatRequest_history_always_empty initialChatState "hi" (getAIMessageRequest "hi") rfl

/-- **C4, counterexample.**  Invoking `handleCheckout` on a session whose
cart is empty is not a no-op: an order identifier is generated and recorded
and the order-complete flag becomes true — `handleCheckout` contains no
empty-cart (nor in-flight) guard. -/
theorem checkout_empty_cart_cex :
    (handleCheckout emptyCartState 0).orderComplete = true
    ∧ (handleCheckout emptyCartState 0).lastOrderId = some "PS0"
    ∧ handleCheckout emptyCartState 0 ≠ emptyCartState := by
  refine ⟨rfl, rfl, fun h => ?_⟩
  have hoc := congrArg AppState.orderComplete h
  simp [handleCheckout, emptyCartState] at hoc

/-- **C4, amended.**  `handleCheckout` itself is unconditional: from every
session state it clears the cart, raises the order-complete flag and records
the generated order id.  The empty-cart and in-flight protections live in the
presentation layer: the `CartModal` checkout control is rendered only when
the cart is non-empty and is disabled while a checkout is processing, so it
cannot dispatch `handleCheckout` in those states. -/
theorem checkout_unconditional (s : AppState) (now : Nat)
    (items : List CartItem) (proc : Bool) :
    (handleCheckout s now).cartItems = []
    ∧ (handleCheckout s now).orderComplete = true
    ∧ (handleCheckout s now).lastOrderId = some ("PS" ++ toString now)
    ∧ checkoutControlActive items proc = (!items.isEmpty && !proc) := by
  refine ⟨rfl, rfl, rfl, ?_⟩
  cases items <;> cases proc <;> rfl

/-- **C5, counterexample.**  After one `addToCart` entry a cart mutation is
in flight (one pending remote call), yet a second `addToCart` invocation is
admitted and changes the state (a second call goes out): it is not a no-op,
and the cart-mutation operation kind reaches a Pending state from a Pending
state. -/
theorem addToCart_no_latch_cex :
    (addToCartStart emptyCartState part1).pendingAdds = 1
    ∧ (addToCartStart (addToCartStart emptyCartState part1) part1).pendingAdds = 2
    ∧ addToCartStart (addToCartStart emptyCartState part1) part1
        ≠ addToCartStart emptyCartState part1 := by
  refine ⟨rfl, rfl, fun h => ?_⟩
  have hp := congrArg AppState.pendingAdds h
  simp [addToCartStart, emptyCartState] at hp

/-- **C5, amended.**  `addToCart` performs no latch check at entry: from
every session state — in particular while a cart mutation is already in
flight — it issues a further remote call without touching the cart, so
Pending-to-Pending is reachable for the cart-mutation kind, and two
concurrent adds that both succeed increment the same line twice.  Only the
chat-turn kind has an entry latch: a submission while `isLoading` is set is
a no-op. -/
theorem addToCart_unguarded (s : AppState) (p : ProductRef) (cs : ChatState)
    (input : String) (o : ChatOutcome) :
    (addToCartStart s p).pendingAdds = s.pendingAdds + 1
    ∧ (addToCartStart s p).cartItems = s.cartItems
    ∧ (cs.isLoading = true → handleSend cs input o = cs)
    ∧ ((addToCartResolve
          (addToCartResolve (addToCartStart (addToCartStart emptyCartState p) p)
            p true).2 p true).2).cartItems = [cartItemOf p 2] := by
  refine ⟨rfl, rfl, fun h => handleSend_noop cs input o (by simp [h]), ?_⟩
  simp only [addToCartResolve, addToCartStart, emptyCartState, if_true]
  simp only [addItemLocal, List.find?_nil, List.nil_append]
  have hnew : sameId p (cartItemOf p 1) = true := by
    simp [sameId, cartItemOf]
  simp only [List.find?_cons, hnew, cond_true]
  simp only [List.map_cons, List.map_nil, bump, hnew, if_true]
  simp only [cartItemOf, List.cons.injEq, CartItem.mk.injEq, and_true, true_and]
  norm_num

/-- Witness for the amended C5: the chat-turn latch conjunct at a concrete
loading state. -/
theorem addToCart_unguarded_witness :
    handleSend { messages := [], input := "x", isLoading := true } "x"
      ChatOutcome.failure = { messages := [], input := "x", isLoading := true } :=
  (addToCart_unguarded emptyCartState part1
    { messages := [], input := "x", isLoading := true } "x" ChatOutcome.failure).2.2.1 rfl

section IndexLemmas

/-- An indexed filter whose predicate holds at every position it visits
returns the list unchanged. -/
theorem filterWithIndexFrom_all_true {α : Type} (p : Nat → α → Bool)
    (l : List α) (s : Nat)
    (h : ∀ i x, s ≤ i → i < s + l.length → p i x = true) :
    filterWithIndexFrom p s l = l := by
  induction l generalizing s with
  | nil => rfl
  | cons x xs ih =>
    rw [filterWithIndexFrom, h s x le_rfl (by simp), ih (s + 1)]
    · rfl
    · intro i y hi hlt
      exact h i y (le_trans (Nat.le_succ s) hi) (by simp at hlt ⊢; omega)

/-- An indexed map whose function is the identity at every position it
visits returns the list unchanged. -/
theorem mapWithIndexFrom_all_id {α : Type} (f : Nat → α → α)
    (l : List α) (s : Nat)
    (h : ∀ i x, s ≤ i → i < s + l.length → f i x = x) :
    mapWithIndexFrom f s l = l := by
  induction l generalizing s with
  | nil => rfl
  | cons x xs ih =>
    rw [mapWithIndexFrom, h s x le_rfl (by simp), ih (s + 1)]
    intro i y hi hlt
    exact h i y (le_trans (Nat.le_succ s) hi) (by simp at hlt ⊢; omega)

/-- An out-of-range removal leaves the cart unchanged (silently). -/
theorem removeFromCart_oob (cart : List CartItem) (index : Int)
    (h : index < 0 ∨ (cart.length : Int) ≤ index) :
    removeFromCart cart index = cart := by
  refine filterWithIndexFrom_all_true _ cart 0 ?_
  intro i x _ hlt
  have hne : (i : Int) ≠ index := by
    rcases h with h | h <;> omega
  simp [hne]

end IndexLemmas

/-- Sample single-line cart used in the concrete counterexamples. -/
def oneLineCart : List CartItem := [cartItemOf part1 1]

/-- **C8, counterexample.**  On the out-of-range index 5 of a one-line cart,
`updateCartQuantity` and `removeFromCart` return the unchanged cart with no
error signal of any kind — their result type carries none — which is exactly
what a valid in-range no-change update returns; the spec-modelled
`SetQuantity` contract instead demands an index-out-of-range report
(an error value) there.  So the code does not "report an index-out-of-range
condition". -/
theorem setQuantity_oob_silent_cex :
    updateCartQuantity oneLineCart 5 3 = oneLineCart
    ∧ removeFromCart oneLineCart 5 = oneLineCart
    ∧ updateCartQuantity oneLineCart 0 1 = oneLineCart
    ∧ specSetQuantity oneLineCart 5 3 = Except.error "index out of range" :=
  ⟨rfl, rfl, rfl, rfl⟩

/-- **C8, amended.**  For every cart and every index, setting a quantity
`<= 0` is the same operation as removing that line (order of the remaining
lines preserved, since both are the same filtered list); for every index
that is not a valid existing line, both the quantity update and the removal
leave the cart unchanged, silently: no index-out-of-range condition is
reported (the operations return only the new list). -/
theorem setQuantity_remove_equiv (cart : List CartItem) (index : Int) (q : ℚ) :
    (q ≤ 0 → updateCartQuantity cart index q = removeFromCart cart index)
    ∧ (index < 0 ∨ (cart.length : Int) ≤ index →
        removeFromCart cart index = cart ∧ updateCartQuantity cart index q = cart) := by
  constructor
  · intro hq
    rw [updateCartQuantity, if_pos hq]
  · intro hoob
    refine ⟨removeFromCart_oob cart index hoob, ?_⟩
    by_cases hq : q ≤ 0
    · rw [updateCartQuantity, if_pos hq]
      exact removeFromCart_oob cart index hoob
    · rw [updateCartQuantity, if_neg hq]
      refine mapWithIndexFrom_all_id _ cart 0 ?_
      intro i x _ hlt
      have hne : (i : Int) ≠ index := by
        rcases hoob with h | h <;> omega
      simp [hne]

/-- Witness for the amended C8: removing via a zero quantity at a concrete
index coincides with removal, and an out-of-range call is the identity. -/
theorem setQuantity_remove_equiv_witness :
    updateCartQuantity oneLineCart 0 0 = removeFromCart oneLineCart 0
    ∧ removeFromCart oneLineCart 7 = oneLineCart :=
  ⟨(setQuantity_remove_equiv oneLineCart 0 0).1 le_rfl,
   ((setQuantity_remove_equiv oneLineCart 7 0).2 (Or.inr (by norm_num [oneLineCart]))).1⟩

/-- The canonical decoder recovers each encoded line. -/
theorem jsonToItem_itemToJson (item : CartItem) :
    jsonToItem (itemToJson item) = some item := rfl

/-- **C9, counterexample.**  The stored payload `"42"` parses as the JSON
number 42, which is not a valid cart snapshot, yet the load effect installs
it as the cart state unvalidated: the session does not start with the empty
cart, so an unparseable-as-snapshot payload is not treated as absent. -/
theorem loadCart_invalid_payload_cex :
    loadCart (some (Except.ok (Json.num 42))) = Json.num 42
    ∧ jsonToCart (Json.num 42) = none
    ∧ loadCart (some (Except.ok (Json.num 42))) ≠ cartToJson [] := by
  refine ⟨rfl, rfl, fun h => ?_⟩
  exact Json.noConfusion h

/-- **C9, amended.**  Saving a cart and loading it back yields the same
lines, quantities and price snapshots in the same order; an absent payload
and a payload on which `JSON.parse` throws start the session with the empty
cart; but a payload that parses as JSON without being a valid cart snapshot
is installed as the cart state as-is (no validation), not treated as
absent. -/
theorem persistence_roundtrip (cart : List CartItem) (j : Json) :
    jsonToCart (loadCart (some (Except.ok (cartToJson cart)))) = some cart
    ∧ loadCart none = cartToJson []
    ∧ loadCart (some (Except.error ())) = cartToJson []
    ∧ loadCart (some (Except.ok j)) = j := by
  refine ⟨?_, rfl, rfl, rfl⟩
  show decodeItems (cart.map itemToJson) = some cart
  induction cart with
  | nil => rfl
  | cons x xs ih => simp [decodeItems, jsonToItem_itemToJson, ih]

section RepeatedAdd

/-- The bump callback never changes the product identifier. -/
theorem bump_pid (part : ProductRef) (item : CartItem) :
    (bump part item).partselect_number = item.partselect_number := by
  unfold bump; split <;> rfl

/-- Line matching is invariant under the bump callback. -/
theorem sameId_bump (part : ProductRef) (item : CartItem) :
    sameId part (bump part item) = sameId part item := by
  unfold sameId; rw [bump_pid]

/-- The bump callback is the identity on non-matching lines. -/
theorem bump_of_not_sameId (part : ProductRef) (item : CartItem)
    (h : sameId part item = false) : bump part item = item := by
  simp [bump, h]

/-- `find?` is the head of the filtered list. -/
theorem find?_eq_head_filter {α : Type} (p : α → Bool) (l : List α) :
    l.find? p = (l.filter p).head? := by
  induction l with
  | nil => rfl
  | cons x xs ih =>
    cases hx : p x
    · rw [List.find?_cons_of_neg _ (by simp [hx]),
        List.filter_cons_of_neg (by simp [hx]), ih]
    · rw [List.find?_cons_of_pos _ hx, List.filter_cons_of_pos hx, List.head?_cons]

/-- Filtering after a bump map commutes with mapping the filtered list, for
any predicate the bump preserves. -/
theorem filter_map_bump (part : ProductRef) (p : CartItem → Bool)
    (hp : ∀ x, p (bump part x) = p x) (l : List CartItem) :
    (l.map (bump part)).filter p = (l.filter p).map (bump part) := by
  induction l with
  | nil => rfl
  | cons x xs ih => cases hx : p x <;> simp [List.filter_cons, hp, hx, ih]

/-- Bumping a list with no matching line is the identity. -/
theorem map_bump_of_none_match (part : ProductRef) (l : List CartItem)
    (h : ∀ x ∈ l, sameId part x = false) : l.map (bump part) = l := by
  induction l with
  | nil => rfl
  | cons x xs ih =>
    rw [List.map_cons, bump_of_not_sameId part x (h x (List.mem_cons_self x xs)),
      ih (fun y hy => h y (List.mem_cons_of_mem x hy))]

/-- The identifier column is invariant under the bump map. -/
theorem map_pid_map_bump (part : ProductRef) (l : List CartItem) :
    (l.map (bump part)).map (fun item => item.partselect_number)
      = l.map (fun item => item.partselect_number) := by
  induction l with
  | nil => rfl
  | cons x xs ih => simp [bump_pid, ih]

/-- When exactly one line matches, the local add is the bump map. -/
theorem addItemLocal_of_filter_single (cart : List CartItem) (part : ProductRef)
    (l : CartItem) (h : cart.filter (sameId part) = [l]) :
    addItemLocal cart part = cart.map (bump part) := by
  have hfind : cart.find? (sameId part) = some l := by
    rw [find?_eq_head_filter, h]; rfl
  simp only [addItemLocal, hfind]

/-- When no line matches, the local add appends the fresh line. -/
theorem addItemLocal_of_filter_nil (cart : List CartItem) (part : ProductRef)
    (h : cart.filter (sameId part) = []) :
    addItemLocal cart part = cart ++ [cartItemOf part 1] := by
  have hfind : cart.find? (sameId part) = none := by
    rw [find?_eq_head_filter, h]; rfl
  simp only [addItemLocal, hfind]

/-- Invariant of `n` repeated adds over a cart whose matching lines are
exactly `[l]`: the matching line is `l` with its quantity increased by `n`,
the non-matching lines are untouched, and the identifier column (hence the
relative order of lines) is unchanged. -/
theorem addNTimes_spec_present (cart : List CartItem) (part : ProductRef)
    (l : CartItem) (h : cart.filter (sameId part) = [l]) (n : Nat) :
    (addNTimes cart part n).filter (sameId part)
        = [{ l with quantity := l.quantity + n }]
    ∧ (addNTimes cart part n).filter (fun item => !(sameId part item))
        = cart.filter (fun item => !(sameId part item))
    ∧ (addNTimes cart part n).map (fun item => item.partselect_number)
        = cart.map (fun item => item.partselect_number) := by
  have hl : sameId part l = true := by
    have hm : l ∈ cart.filter (sameId part) := by rw [h]; exact List.mem_singleton_self l
    exact (List.mem_filter.mp hm).2
  induction n with
  | zero =>
    refine ⟨?_, rfl, rfl⟩
    rw [addNTimes, h]
    congr 1
    cases l
    simp
  | succ n ih =>
    obtain ⟨ih1, ih2, ih3⟩ := ih
    have hstep : addNTimes cart part (n + 1) = (addNTimes cart part n).map (bump part) := by
      rw [addNTimes]
      exact addItemLocal_of_filter_single _ part _ ih1
    refine ⟨?_, ?_, ?_⟩
    · rw [hstep, filter_map_bump part _ (sameId_bump part), ih1, List.map_cons, List.map_nil]
      have hb : bump part { l with quantity := l.quantity + (n : ℚ) }
          = { l with quantity := l.quantity + (n : ℚ) + 1 } := by
        have hsl : sameId part { l with quantity := l.quantity + (n : ℚ) } = true := hl
        simp [bump, hsl]
      rw [hb]
      congr 2
      push_cast
      ring
    · rw [hstep, filter_map_bump part _ (fun x => by rw [sameId_bump]),
        map_bump_of_none_match part _ ?_, ih2]
      intro x hx
      have := (List.mem_filter.mp hx).2
      simpa using this
    · rw [hstep, map_pid_map_bump, ih3]

/-- Unfolding repeated adds from the inside. -/
theorem addNTimes_succ_shift (cart : List CartItem) (part : ProductRef) (n : Nat) :
    addNTimes cart part (n + 1) = addNTimes (addItemLocal cart part) part n := by
  induction n with
  | zero => rfl
  | succ n ih => rw [addNTimes, ih]; rfl

end RepeatedAdd

/-- **C1, counterexample.**  On a starting cart holding two lines with the
same identifier (such a cart is reachable: the load effect installs any
parsed payload unvalidated), one add does not result in exactly one line for
that identifier — the map increments every matching line, leaving two. -/
theorem addToCart_repeated_duplicate_cex :
    ¬(((addNTimes [cartItemOf part1 1, cartItemOf part1 1] part1 1).filter
        (sameId part1)).length = 1) := by
  decide

/-- **C1, amended.**  For every starting cart satisfying the cart invariant
(at most one line for the identifier) and every positive number `n` of adds
of the same product, the resulting cart has exactly one line for that
identifier, its quantity is the starting quantity (0 if absent) plus `n`,
all other lines are unchanged, and the identifier column shows the original
order, with the new identifier appended at the end exactly when it was
absent. -/
theorem addToCart_repeated (cart : List CartItem) (part : ProductRef) (n : Nat)
    (hn : 1 ≤ n) (hinv : (cart.filter (sameId part)).length ≤ 1) :
    ((addNTimes cart part n).filter (sameId part)).length = 1
    ∧ (∀ l ∈ (addNTimes cart part n).filter (sameId part),
        l.quantity = startQty cart part + n)
    ∧ (addNTimes cart part n).filter (fun item => !(sameId part item))
        = cart.filter (fun item => !(sameId part item))
    ∧ (addNTimes cart part n).map (fun item => item.partselect_number)
        = (if (cart.find? (sameId part)).isSome
           then cart.map (fun item => item.partselect_number)
           else cart.map (fun item => item.partselect_number)
             ++ [part.partselect_number]) := by
  cases hfl : cart.filter (sameId part) with
  | cons l t =>
    have ht : t = [] := by
      rw [hfl] at hinv
      simp only [List.length_cons] at hinv
      exact List.length_eq_zero.mp (by omega)
    subst ht
    have hfind : cart.find? (sameId part) = some l := by
      rw [find?_eq_head_filter, hfl]; rfl
    obtain ⟨h1, h2, h3⟩ := addNTimes_spec_present cart part l hfl n
    refine ⟨by rw [h1]; rfl, ?_, h2, ?_⟩
    · intro x hx
      rw [h1, List.mem_singleton] at hx
      subst hx
      simp [startQty, hfind]
    · rw [hfind] at *
      simpa using h3
  | nil =>
    have hfind : cart.find? (sameId part) = none := by
      rw [find?_eq_head_filter, hfl]; rfl
    obtain ⟨m, rfl⟩ : ∃ m, n = m + 1 := ⟨n - 1, by omega⟩
    have hadd : addItemLocal cart part = cart ++ [cartItemOf part 1] :=
      addItemLocal_of_filter_nil cart part hfl
    have hnew : sameId part (cartItemOf part 1) = true := by
      simp [sameId, cartItemOf]
    have hflnew : (cart ++ [cartItemOf part 1]).filter (sameId part)
        = [cartItemOf part 1] := by
      simp [List.filter_append, hfl, hnew]
    obtain ⟨h1, h2, h3⟩ :=
      addNTimes_spec_present (cart ++ [cartItemOf part 1]) part (cartItemOf part 1)
        hflnew m
    rw [addNTimes_succ_shift, hadd]
    refine ⟨by rw [h1]; rfl, ?_, ?_, ?_⟩
    · intro x hx
      rw [h1, List.mem_singleton] at hx
      subst hx
      simp [startQty, hfind, cartItemOf]
      ring
    · rw [h2, List.filter_append]
      have : (List.filter (fun item => !(sameId part item)) [cartItemOf part 1]) = [] := by
        simp [hnew]
      rw [this, List.append_nil]
    · rw [h3, hfind]
      simp [cartItemOf]

/-- Witness for the amended C1: two adds of `part1` into the empty cart. -/
theorem addToCart_repeated_witness :
    ((addNTimes [] part1 2).filter (sameId part1)).length = 1 :=
  (addToCart_repeated [] part1 2 (by norm_num) (by simp)).1
